import Mathlib

/- Verification of the 1453-ai-telegram-bot ingestion-to-delivery pipeline.
   Shallow embedding of: the live-tag detector (src/services/live-detector.ts),
   the Redis-backed duplicate suppressor (src/utils/deduplication.ts), the
   Telegram delivery fan-out (src/services/telegram.ts), the YouTube metadata
   fetcher retry loop (src/services/youtube.ts), and the WebSub feed ingestion
   controller (src/handlers/websub.ts). Network effects are modelled by
   oracles; time by an explicit clock in seconds. -/

namespace AltudevBot

/-! Live tag detector (src/services/live-detector.ts). The pattern is
    LIVE_TAG_PATTERN = /#live\b/i, tested against the video description. -/

/-- JS regex word-character class [A-Za-z0-9_], the class used by the \b
boundary of LIVE_TAG_PATTERN (non-unicode mode). -/
def isWordChar (c : Char) : Bool := c.isAlphanum || c == '_'

/-- Case-insensitive match of the literal characters of the marker token
"#live" at the head of the character list (boundary not yet checked). -/
def tagAt : List Char → Bool
  | '#' :: c1 :: c2 :: c3 :: c4 :: _ =>
      c1.toLower == 'l' && c2.toLower == 'i' && c3.toLower == 'v' && c4.toLower == 'e'
  | _ => false

/-- The trailing \b boundary of the pattern: end of input or a following
non-word character. -/
def boundaryAfter : List Char → Bool
  | [] => true
  | c :: _ => !(isWordChar c)

/-- The whole pattern matched at the head of the list: the token characters
followed by a word boundary. -/
def tagHeadMatch (l : List Char) : Bool := tagAt l && boundaryAfter (l.drop 5)

/-- LiveDetectorService.containsLiveTag: LIVE_TAG_PATTERN.test(description),
i.e. the pattern matches at some position of the description. -/
def containsLiveTag : List Char → Bool
  | [] => false
  | c :: rest => tagHeadMatch (c :: rest) || containsLiveTag rest

/-! Spec-side predicates for the tag-filter claim, phrased from the spec's
    words ("as a separate word" / "only as a substring of a longer word"),
    with "word" read in the word-boundary sense the spec itself names. -/

/-- Boundary before a position: start of input or a preceding non-word
character. -/
def prevBoundary : Option Char → Bool
  | none => true
  | some c => !(isWordChar c)

/-- Scan tracking the previous character: the marker token occurs at some
position with a word boundary on both sides. -/
def occursAsWordFrom : Option Char → List Char → Bool
  | _, [] => false
  | prev, c :: rest =>
      (prevBoundary prev && tagAt (c :: rest) && boundaryAfter ((c :: rest).drop 5))
        || occursAsWordFrom (some c) rest

/-- The marker token occurs somewhere in the description as a separate word:
word boundaries on both sides of the occurrence. -/
def occursAsSeparateWord (s : List Char) : Bool := occursAsWordFrom none s

/-- The marker token occurs somewhere in the description, boundaries ignored. -/
def tagOccurs : List Char → Bool
  | [] => false
  | c :: rest => tagAt (c :: rest) || tagOccurs rest

/-- Every occurrence of the marker token is immediately followed by a word
character, i.e. the token appears only as a proper prefix of a longer word
(such as "#livestream"). -/
def onlyInLongerWord : List Char → Bool
  | [] => true
  | c :: rest =>
      (!(tagAt (c :: rest)) || !(boundaryAfter ((c :: rest).drop 5)))
        && onlyInLongerWord rest

/-! Duplicate suppressor (src/utils/deduplication.ts). The Redis store is
    modelled as a reachability flag (an unreachable store makes every round
    trip raise, which each operation catches), a list of live keys with
    absolute expiry instants, and the current clock in seconds. -/

structure RedisStore where
  reachable : Bool
  entriesKV : List (String × Nat)
  now : Nat

/-- TTL_SECONDS = 24 * 60 * 60, the fixed 24-hour expiry window. -/
def TTL_SECONDS : Nat := 24 * 60 * 60

/-- The namespaced suppression key KEY_PREFIX + videoId, with
KEY_PREFIX = "youtube-livestream:". -/
def dedupKey (videoId : String) : String := "youtube-livestream:" ++ videoId

/-- DeduplicationService.hasBeenNotified: redis.exists on the namespaced key
(true iff the key is live at the current instant); the catch clause returns
false when the store round trip fails, so an unreachable store reads as
"not notified". -/
def hasBeenNotified (store : RedisStore) (videoId : String) : Bool :=
  if store.reachable then
    store.entriesKV.any (fun kv => kv.1 == dedupKey videoId && decide (store.now < kv.2))
  else
    false

/-- DeduplicationService.markAsNotified: redis.setex(key, TTL_SECONDS, "1"),
which replaces any previous binding of the key and sets its expiry to
now + TTL_SECONDS; the catch clause logs and leaves the store unchanged when
the round trip fails. -/
def markAsNotified (store : RedisStore) (videoId : String) : RedisStore :=
  if store.reachable then
    { store with
        entriesKV := (dedupKey videoId, store.now + TTL_SECONDS)
          :: store.entriesKV.filter (fun kv => kv.1 != dedupKey videoId) }
  else
    store

/-- Move the controllable clock of the store model to instant t. -/
def atTime (store : RedisStore) (t : Nat) : RedisStore := { store with now := t }

/-! Shared data shapes (src/types.ts). The description is kept as a character
    list because the tag filter works character by character. -/

structure VideoMetadata where
  id : String
  title : String
  description : List Char
  publishedAt : String
  thumbnailUrl : Option String
  channelTitle : String
  channelId : String

structure NotificationResult where
  success : Bool
  chatId : String
  error : Option String
  timestamp : String

/-! Telegram delivery fan-out (src/services/telegram.ts). A send attempt is an
    oracle from chat id and attempt number to none (success) or some message
    (the attempt threw with that error message). -/

namespace TelegramService

def MAX_RETRIES : Nat := 3

def RETRY_DELAY_MS : Nat := 2000

/-- The attempt loop of TelegramService.sendToChatWithRetry. remaining counts
the retries still allowed after the current attempt; a failed non-final
attempt records a linear backoff sleep of RETRY_DELAY_MS * attempt before the
next attempt. Returns the NotificationResult together with the recorded
sleeps. -/
def sendToChatGo (send : String → Nat → Option String) (chatId ts : String) :
    Nat → Nat → NotificationResult × List Nat
  | attempt, remaining =>
    match send chatId attempt with
    | none => ({ success := true, chatId := chatId, error := none, timestamp := ts }, [])
    | some msg =>
      match remaining with
      | 0 => ({ success := false, chatId := chatId, error := some msg, timestamp := ts }, [])
      | r + 1 =>
        let next := sendToChatGo send chatId ts (attempt + 1) r
        (next.1, (RETRY_DELAY_MS * attempt) :: next.2)

/-- TelegramService.sendToChatWithRetry: up to MAX_RETRIES attempts starting
at attempt 1. -/
def sendToChatWithRetry (send : String → Nat → Option String) (chatId ts : String) :
    NotificationResult × List Nat :=
  sendToChatGo send chatId ts 1 (MAX_RETRIES - 1)

/-- TelegramService.sendLivestreamNotification: one retried delivery per
configured chat id, in configured order, each outcome pushed onto the result
list. -/
def sendLivestreamNotification (chatIds : List String)
    (send : String → Nat → Option String) (ts : String) : List NotificationResult :=
  chatIds.map (fun chatId => (sendToChatWithRetry send chatId ts).1)

end TelegramService

/-! YouTube metadata fetcher (src/services/youtube.ts). -/

namespace YouTubeService

def MAX_RETRIES : Nat := 3

def RETRY_DELAY_MS : Nat := 1000

/-- Decimal digits folded into a natural number. -/
def digitsVal (ds : List Char) : Nat :=
  ds.foldl (fun acc c => 10 * acc + (c.toNat - '0'.toNat)) 0

/-- JavaScript parseInt(s, 10): skip leading whitespace, an optional sign,
then the longest prefix of decimal digits; NaN (none) when that prefix is
empty. Whitespace is modelled by the ASCII whitespace characters. -/
def jsParseInt (s : String) : Option Int :=
  let l := s.toList.dropWhile (fun c => c == ' ' || c == '\t' || c == '\n' || c == '\r')
  let signed : Int × List Char :=
    match l with
    | '-' :: r => (-1, r)
    | '+' :: r => (1, r)
    | _ => (1, l)
  let ds := signed.2.takeWhile (fun c => c.isDigit)
  if ds.isEmpty then none else some (signed.1 * (digitsVal ds : Int))

/-- The value headers["retry-after"] || RETRY_DELAY_MS as later coerced to a
string by parseInt: the header when present and truthy (non-empty), else the
number RETRY_DELAY_MS = 1000 coerced to "1000". -/
def retryAfterString : Option String → String
  | some h => if h == "" then "1000" else h
  | none => "1000"

/-- The 429 branch of makeRequestWithRetry: the delay in milliseconds is
parseInt(retryAfter, 10) * 1000 unless that is falsy (NaN or 0), in which
case it falls back to RETRY_DELAY_MS * attempt. -/
def computeDelay429 (header : Option String) (attempt : Nat) : Int :=
  match jsParseInt (retryAfterString header) with
  | none => ((RETRY_DELAY_MS * attempt : Nat) : Int)
  | some n => if n * 1000 == 0 then ((RETRY_DELAY_MS * attempt : Nat) : Int) else n * 1000

/-- The two failure shapes distinguished by makeRequestWithRetry: an axios
error with HTTP status 429 carrying an optional retry-after header, or any
other failure. -/
inductive ReqError where
  | rateLimited (retryAfter : Option String)
  | generic

/-- One iteration of the for-loop of makeRequestWithRetry. remaining is the
number of attempts still allowed after the current one. A 429 failure sleeps
its computed delay even on the final attempt; a generic failure sleeps
RETRY_DELAY_MS * attempt only when another attempt follows. Returns the
outcome (the last error is rethrown when all attempts are exhausted), the
number of attempts made, and the recorded sleep delays in milliseconds. -/
def retryGo {T : Type} (req : Nat → Except ReqError T) :
    Nat → Nat → Except ReqError T × Nat × List Int
  | attempt, remaining =>
    match req attempt with
    | Except.ok v => (Except.ok v, 1, [])
    | Except.error e =>
      match remaining with
      | 0 =>
        match e with
        | ReqError.rateLimited h => (Except.error e, 1, [computeDelay429 h attempt])
        | ReqError.generic => (Except.error e, 1, [])
      | r + 1 =>
        let d : Int :=
          match e with
          | ReqError.rateLimited h => computeDelay429 h attempt
          | ReqError.generic => ((RETRY_DELAY_MS * attempt : Nat) : Int)
        let next := retryGo req (attempt + 1) r
        (next.1, next.2.1 + 1, d :: next.2.2)

/-- YouTubeService.makeRequestWithRetry: the loop starts at attempt 1 with
MAX_RETRIES - 1 retries left. -/
def makeRequestWithRetry {T : Type} (req : Nat → Except ReqError T) :
    Except ReqError T × Nat × List Int :=
  retryGo req 1 (MAX_RETRIES - 1)

/-- The snippet part of a YouTube videos.list item. -/
structure ApiSnippet where
  title : String
  description : List Char
  publishedAt : String
  thumbHigh : Option String
  thumbMedium : Option String
  channelTitle : String
  channelId : String

structure ApiItem where
  snippet : ApiSnippet

structure ApiResponse where
  items : List ApiItem

/-- JavaScript a || b on optional strings: a when present and non-empty,
else b. -/
def jsOrStr (a b : Option String) : Option String :=
  match a with
  | some s => if s == "" then b else some s
  | none => b

/-- The VideoMetadata built by getVideoMetadata from the first response
item. -/
def metadataOfItem (videoId : String) (item : ApiItem) : VideoMetadata :=
  { id := videoId
  , title := item.snippet.title
  , description := item.snippet.description
  , publishedAt := item.snippet.publishedAt
  , thumbnailUrl := jsOrStr item.snippet.thumbHigh item.snippet.thumbMedium
  , channelTitle := item.snippet.channelTitle
  , channelId := item.snippet.channelId }

/-- YouTubeService.getVideoMetadata: run the request with retry; a caught
error or an empty items array yields null; otherwise the first item's snippet
is mapped to VideoMetadata. Also reports attempts made and recorded backoff
delays. -/
def getVideoMetadata (videoId : String) (req : Nat → Except ReqError ApiResponse) :
    Option VideoMetadata × Nat × List Int :=
  let r := makeRequestWithRetry req
  match r.1 with
  | Except.error _ => (none, r.2.1, r.2.2)
  | Except.ok resp =>
    match resp.items with
    | [] => (none, r.2.1, r.2.2)
    | item :: _ => (some (metadataOfItem videoId item), r.2.1, r.2.2)

end YouTubeService

/-! Feed ingestion controller (src/handlers/websub.ts). -/

/-- A parsed feed entry: entry["yt:videoId"]?.[0], absent when the entry
carries no video id. -/
structure FeedEntry where
  videoId : Option String

/-- The feed.entry field of the parsed payload: xml2js yields a single object
or an array. -/
inductive EntryNode where
  | one (e : FeedEntry)
  | many (es : List FeedEntry)

structure Feed where
  entry : Option EntryNode

structure WebSubPayload where
  feed : Option Feed

/-- Which stages of processFeedEntry ran for one entry, the fan-out outcome
list, and whether markAsNotified was invoked. -/
structure EntryTrace where
  dedupChecked : Bool
  fetchCalled : Bool
  filterCalled : Bool
  fanoutCalled : Bool
  outcomes : List NotificationResult
  markCalled : Bool

/-- The collaborators of the controller: the metadata fetch outcome per video
id (none models a fetch failure or a missing video, after the fetcher's own
internal retries), the per-chat per-attempt send oracle, the configured chat
ids, and the current wall-clock timestamp string. -/
structure PipelineEnv where
  fetch : String → Option VideoMetadata
  send : String → Nat → Option String
  chatIds : List String
  nowTs : String

def emptyTrace : EntryTrace :=
  { dedupChecked := false, fetchCalled := false, filterCalled := false
  , fanoutCalled := false, outcomes := [], markCalled := false }

/-- WebSubHandler.processFeedEntry: extract the video id (skip when missing),
skip when the duplicate suppressor already knows the id, fetch metadata (skip
on failure), run the tag filter (skip silently when false), fan out to every
configured chat, then mark the id as notified regardless of the per-chat
outcomes. -/
def processFeedEntry (env : PipelineEnv) (store : RedisStore) (entry : FeedEntry) :
    RedisStore × EntryTrace :=
  match entry.videoId with
  | none => (store, emptyTrace)
  | some videoId =>
    if hasBeenNotified store videoId then
      (store, { emptyTrace with dedupChecked := true })
    else
      match env.fetch videoId with
      | none => (store, { emptyTrace with dedupChecked := true, fetchCalled := true })
      | some meta =>
        if containsLiveTag meta.description then
          ( markAsNotified store videoId
          , { dedupChecked := true, fetchCalled := true, filterCalled := true
            , fanoutCalled := true
            , outcomes :=
                TelegramService.sendLivestreamNotification env.chatIds env.send env.nowTs
            , markCalled := true } )
        else
          (store, { emptyTrace with
                      dedupChecked := true, fetchCalled := true, filterCalled := true })

/-- The sequential per-entry loop of handleWebSubCallback, threading the
suppressor store and collecting each entry's trace. -/
def processEntries (env : PipelineEnv) (store : RedisStore) :
    List FeedEntry → RedisStore × List (FeedEntry × EntryTrace)
  | [] => (store, [])
  | e :: es =>
    let p := processFeedEntry env store e
    let q := processEntries env p.1 es
    (q.1, (e, p.2) :: q.2)

/-- An HTTP text response c.text(body, status). -/
structure TextResponse where
  status : Nat
  body : String

/-- WebSubHandler.handleWebSubCallback on the parsed XML payload (none models
a body xml2js could not parse): a payload missing the feed or entry structure
answers 400; otherwise every entry is processed in order (each entry's errors
are swallowed by its own catch) and the handler answers 200. -/
def handleWebSubCallback (env : PipelineEnv) (store : RedisStore)
    (parsed : Option WebSubPayload) :
    TextResponse × RedisStore × List (FeedEntry × EntryTrace) :=
  match parsed with
  | none => ({ status := 400, body := "Invalid payload" }, store, [])
  | some p =>
    match p.feed with
    | none => ({ status := 400, body := "Invalid payload" }, store, [])
    | some f =>
      match f.entry with
      | none => ({ status := 400, body := "Invalid payload" }, store, [])
      | some en =>
        let entries :=
          match en with
          | EntryNode.one e => [e]
          | EntryNode.many es => es
        let r := processEntries env store entries
        ({ status := 200, body := "OK" }, r.1, r.2)

/-- WebSubHandler.handleSubscriptionVerification: answer the challenge (or
the empty string when the hub.challenge parameter is absent) with 200 when
hub.mode is subscribe and hub.topic equals the expected topic URL, else
answer 400. -/
def handleSubscriptionVerification (mode topic challenge : Option String)
    (topicUrl : String) : TextResponse :=
  if mode == some "subscribe" && topic == some topicUrl then
    { status := 200, body := challenge.getD "" }
  else
    { status := 400, body := "Invalid request" }

/-! Spec-side counters and predicates for the controller claims. -/

/-- The parsed payload has the feed/entry structure the handler requires. -/
def hasFeedStructure : Option WebSubPayload → Bool
  | none => false
  | some p =>
    match p.feed with
    | none => false
    | some f =>
      match f.entry with
      | none => false
      | some _ => true

/-- How many entries of a processed payload ran the downstream pipeline
(duplicate check, metadata fetch and tag filter all invoked) for the given
video id. -/
def pipelineCountFor (trs : List (FeedEntry × EntryTrace)) (id : String) : Nat :=
  (trs.filter (fun p =>
    p.1.videoId == some id && (p.2.dedupChecked && p.2.fetchCalled && p.2.filterCalled))).length

/-- How many entries of a processed payload ran the delivery fan-out for the
given video id. -/
def fanoutCountFor (trs : List (FeedEntry × EntryTrace)) (id : String) : Nat :=
  (trs.filter (fun p => p.1.videoId == some id && p.2.fanoutCalled)).length

/-! Concrete inputs used by witnesses and the counterexample. -/

/-- A tagged video: its description is exactly the marker token. -/
def w1meta : VideoMetadata :=
  { id := "vid1", title := "stream", description := ['#', 'l', 'i', 'v', 'e']
  , publishedAt := "2024-01-01", thumbnailUrl := none
  , channelTitle := "ch", channelId := "c1" }

/-- An environment in which every delivery attempt to every chat fails. -/
def w1env : PipelineEnv :=
  { fetch := fun v => if v == "vid1" then some w1meta else none
  , send := fun _ _ => some "network down"
  , chatIds := ["A", "B", "C"]
  , nowTs := "T0" }

def w1store : RedisStore := { reachable := true, entriesKV := [], now := 0 }

def w1entry : FeedEntry := { videoId := some "vid1" }

/-- A send oracle where chat B always fails and A, C always succeed. -/
def w2send : String → Nat → Option String :=
  fun chatId _ => if chatId == "B" then some "boom" else none

def w3store : RedisStore := { reachable := true, entriesKV := [], now := 0 }

/-- A video without the marker tag. -/
def c5meta : VideoMetadata :=
  { id := "abc123", title := "t", description := ['h', 'i']
  , publishedAt := "p", thumbnailUrl := none, channelTitle := "c", channelId := "ch" }

def c5env : PipelineEnv :=
  { fetch := fun v => if v == "abc123" then some c5meta else none
  , send := fun _ _ => none, chatIds := ["A"], nowTs := "ts" }

def c5store : RedisStore := { reachable := true, entriesKV := [], now := 0 }

/-- A payload whose two entries bear the same video id. -/
def c5payload : WebSubPayload :=
  { feed := some { entry := some (EntryNode.many
      [{ videoId := some "abc123" }, { videoId := some "abc123" }]) } }

/-- A tagged video under the id shared by the two entries of w5entries. -/
def w5meta : VideoMetadata :=
  { id := "abc123", title := "t", description := ['#', 'l', 'i', 'v', 'e']
  , publishedAt := "p", thumbnailUrl := none, channelTitle := "c", channelId := "ch" }

def w5env : PipelineEnv :=
  { fetch := fun v => if v == "abc123" then some w5meta else none
  , send := fun _ _ => none, chatIds := ["A"], nowTs := "ts" }

def w5entries : List FeedEntry :=
  [{ videoId := some "abc123" }, { videoId := some "abc123" }]

def c6req429 : Nat → Except YouTubeService.ReqError Nat :=
  fun _ => Except.error (YouTubeService.ReqError.rateLimited (some "7"))

def c6reqGen : Nat → Except YouTubeService.ReqError Nat :=
  fun _ => Except.error YouTubeService.ReqError.generic

def c7snippet : YouTubeService.ApiSnippet :=
  { title := "t", description := ['d'], publishedAt := "p"
  , thumbHigh := some "hi", thumbMedium := none, channelTitle := "c", channelId := "ch" }

def c7item : YouTubeService.ApiItem := { snippet := c7snippet }

def c7resp : YouTubeService.ApiResponse := { items := [c7item] }

/-- A request that fails generically on attempts 1 and 2 and succeeds on 3. -/
def c7req : Nat → Except YouTubeService.ReqError YouTubeService.ApiResponse :=
  fun a => if a ≤ 2 then Except.error YouTubeService.ReqError.generic else Except.ok c7resp

/-- A structurally valid payload with one entry. -/
def c8payload : WebSubPayload :=
  { feed := some { entry := some (EntryNode.one { videoId := some "vid1" }) } }

def w9store : RedisStore := { reachable := false, entriesKV := [], now := 0 }

def w9entry : FeedEntry := { videoId := some "vid9" }

/-! Helper lemmas. -/

/-- No key surviving the setex replacement filter can satisfy the exists
check for the replaced key. -/
theorem any_filter_ne_key (l : List (String × Nat)) (k : String) (t : Nat) :
    ((l.filter (fun kv => kv.1 != k)).any fun kv => kv.1 == k && decide (t < kv.2))
      = false := by
  induction l with
  | nil => rfl
  | cons hd tl ih =>
    by_cases h : hd.1 = k
    · simpa [List.filter_cons, h] using ih
    · simpa [List.filter_cons, h] using ih

/-! Claim C3. -/

/-- C3: with a reachable store, once markAsNotified succeeds at instant t0
the identifier reads as notified at every instant of the fixed 24-hour
window, and as not notified once the window has elapsed. -/
theorem claim_C3_suppression_window (store : RedisStore) (id : String) (t0 t : Nat)
    (hreach : store.reachable = true) :
    (t0 ≤ t → t < t0 + TTL_SECONDS →
      hasBeenNotified (atTime (markAsNotified (atTime store t0) id) t) id = true) ∧
    (t0 + TTL_SECONDS ≤ t →
      hasBeenNotified (atTime (markAsNotified (atTime store t0) id) t) id = false) := by
  constructor
  · intro _ h2
    simp [markAsNotified, atTime, hasBeenNotified, hreach, h2]
  · intro h1
    have h2 : ¬(t < t0 + TTL_SECONDS) := Nat.not_lt.mpr h1
    simp only [markAsNotified, atTime, hasBeenNotified, hreach, if_true]
    simp [h2, any_filter_ne_key]
    exact fun a b _ hne heq => absurd heq hne

theorem claim_C3_witness :
    hasBeenNotified (atTime (markAsNotified (atTime w3store 10) "abc") 20) "abc" = true ∧
    hasBeenNotified (atTime (markAsNotified (atTime w3store 10) "abc") 86410) "abc"
      = false := by
  constructor
  · exact (claim_C3_suppression_window w3store "abc" 10 20 rfl).1 (by decide) (by decide)
  · exact (claim_C3_suppression_window w3store "abc" 10 86410 rfl).2 (by decide)

/-! Claim C9. -/

/-- C9: when the store is unreachable the duplicate check reads as "not
notified" instead of propagating the failure, so the controller proceeds with
the entry — the metadata fetch stage is still reached — rather than dropping
it because the store is down. -/
theorem claim_C9_fail_open (store : RedisStore) (id : String) (env : PipelineEnv)
    (entry : FeedEntry) (hdown : store.reachable = false)
    (hid : entry.videoId = some id) :
    hasBeenNotified store id = false ∧
    (processFeedEntry env store entry).2.fetchCalled = true := by
  have h1 : hasBeenNotified store id = false := by simp [hasBeenNotified, hdown]
  refine ⟨h1, ?_⟩
  cases hf : env.fetch id with
  | none => simp [processFeedEntry, hid, h1, hf, emptyTrace]
  | some meta =>
    simp only [processFeedEntry, hid, h1, hf, Bool.false_eq_true, if_false]
    split <;> rfl

theorem claim_C9_witness :
    w9store.reachable = false ∧
    hasBeenNotified w9store "vid9" = false ∧
    (processFeedEntry w1env w9store w9entry).2.fetchCalled = true := by
  refine ⟨rfl, ?_, ?_⟩
  · exact (claim_C9_fail_open w9store "vid9" w1env w9entry rfl rfl).1
  · exact (claim_C9_fail_open w9store "vid9" w1env w9entry rfl rfl).2

/-! Claim C10. -/

/-- C10: a verification GET with mode subscribe and the expected topic but no
hub.challenge parameter is still answered 200, with the empty string
substituted for the missing challenge. -/
theorem claim_C10_missing_challenge (topicUrl : String) :
    handleSubscriptionVerification (some "subscribe") (some topicUrl) none topicUrl
      = { status := 200, body := "" } := by
  simp [handleSubscriptionVerification]

/-! Claim C4. -/

/-- An occurrence of the token with a boundary on both sides makes the
detector match (the regex only requires the trailing boundary). -/
theorem occursAsWordFrom_containsLiveTag (s : List Char) :
    ∀ prev, occursAsWordFrom prev s = true → containsLiveTag s = true := by
  induction s with
  | nil => intro prev h; simp [occursAsWordFrom] at h
  | cons c rest ih =>
    intro prev h
    simp only [occursAsWordFrom, Bool.or_eq_true, Bool.and_eq_true] at h
    rcases h with ⟨⟨_, htag⟩, hbd⟩ | h
    · simp only [containsLiveTag, tagHeadMatch, Bool.or_eq_true, Bool.and_eq_true]
      exact Or.inl ⟨htag, by simpa using hbd⟩
    · simp [containsLiveTag, ih (some c) h]

/-- When every occurrence of the token is followed by a word character, the
detector never finds a trailing boundary and does not match. -/
theorem onlyInLongerWord_not_contains (s : List Char) :
    onlyInLongerWord s = true → containsLiveTag s = false := by
  induction s with
  | nil => intro _; rfl
  | cons c rest ih =>
    intro h
    simp only [onlyInLongerWord, Bool.and_eq_true, Bool.or_eq_true,
      Bool.not_eq_true'] at h
    obtain ⟨h1, h2⟩ := h
    simp only [containsLiveTag, tagHeadMatch, Bool.or_eq_false_iff,
      Bool.and_eq_false_iff]
    refine ⟨?_, ih h2⟩
    rcases h1 with h | h
    · exact Or.inl h
    · exact Or.inr (by simpa using h)

/-- C4: a description in which the marker token occurs as a separate word (in
any letter case) satisfies the tag filter; a description in which the token
occurs, but every occurrence sits inside a longer word, never satisfies it. -/
theorem claim_C4_word_boundary (s : List Char) :
    (occursAsSeparateWord s = true → containsLiveTag s = true) ∧
    (tagOccurs s = true → onlyInLongerWord s = true → containsLiveTag s = false) := by
  constructor
  · intro h; exact occursAsWordFrom_containsLiveTag s none h
  · intro _ h; exact onlyInLongerWord_not_contains s h

theorem claim_C4_witness :
    occursAsSeparateWord ['g', 'o', ' ', '#', 'L', 'i', 'v', 'e'] = true ∧
    containsLiveTag ['g', 'o', ' ', '#', 'L', 'i', 'v', 'e'] = true ∧
    tagOccurs ['#', 'l', 'i', 'v', 'e', 's'] = true ∧
    onlyInLongerWord ['#', 'l', 'i', 'v', 'e', 's'] = true ∧
    containsLiveTag ['#', 'l', 'i', 'v', 'e', 's'] = false := by
  refine ⟨by decide, (claim_C4_word_boundary _).1 (by decide), by decide, by decide,
    (claim_C4_word_boundary _).2 (by decide) (by decide)⟩

/-! Claim C2. -/

/-- The retry loop keeps the chat id it was given, and it reports success
exactly when one of the attempts it is allowed to make succeeds. -/
theorem sendToChatGo_fields (send : String → Nat → Option String) (c ts : String) :
    ∀ (remaining attempt : Nat),
      (TelegramService.sendToChatGo send c ts attempt remaining).1.chatId = c ∧
      ((TelegramService.sendToChatGo send c ts attempt remaining).1.success = true ↔
        ∃ k, k ≤ remaining ∧ send c (attempt + k) = none) := by
  intro remaining
  induction remaining with
  | zero =>
    intro attempt
    cases h : send c attempt with
    | none =>
      constructor
      · unfold TelegramService.sendToChatGo; rw [h]
      · unfold TelegramService.sendToChatGo
        rw [h]
        simp only [true_iff]
        exact ⟨0, Nat.le_refl 0, by simpa using h⟩
    | some msg =>
      constructor
      · unfold TelegramService.sendToChatGo; rw [h]
      · unfold TelegramService.sendToChatGo
        rw [h]
        constructor
        · intro hfalse; exact absurd hfalse (by simp)
        · rintro ⟨k, hk, hs⟩
          have hk0 : k = 0 := Nat.le_zero.mp hk
          subst hk0
          rw [Nat.add_zero, h] at hs
          exact absurd hs (by simp)
  | succ r ih =>
    intro attempt
    cases h : send c attempt with
    | none =>
      constructor
      · unfold TelegramService.sendToChatGo; rw [h]
      · unfold TelegramService.sendToChatGo
        rw [h]
        simp only [true_iff]
        exact ⟨0, Nat.zero_le _, by simpa using h⟩
    | some msg =>
      have ih1 := ih (attempt + 1)
      constructor
      · unfold TelegramService.sendToChatGo
        rw [h]
        exact ih1.1
      · unfold TelegramService.sendToChatGo
        rw [h]
        show (TelegramService.sendToChatGo send c ts (attempt + 1) r).1.success = true ↔ _
        rw [ih1.2]
        constructor
        · rintro ⟨k, hk, hs⟩
          refine ⟨k + 1, Nat.succ_le_succ hk, ?_⟩
          rwa [show attempt + (k + 1) = attempt + 1 + k by omega]
        · rintro ⟨k, hk, hs⟩
          cases k with
          | zero =>
            rw [Nat.add_zero, h] at hs
            exact absurd hs (by simp)
          | succ j =>
            refine ⟨j, by omega, ?_⟩
            rwa [show attempt + 1 + j = attempt + (j + 1) by omega]

/-- C2: the fan-out returns exactly one outcome per configured chat id, in
configured order, each outcome tagged with its own chat id and its success
flag determined solely by that chat's own three attempts; a chat failing all
retries yields a failed outcome at its own position without disturbing the
others. -/
theorem claim_C2_fanout_outcomes (chatIds : List String)
    (send : String → Nat → Option String) (ts : String) (i : Nat)
    (h : i < chatIds.length) :
    (TelegramService.sendLivestreamNotification chatIds send ts).length
      = chatIds.length ∧
    ∃ r, (TelegramService.sendLivestreamNotification chatIds send ts).get? i = some r ∧
      r.chatId = chatIds.get ⟨i, h⟩ ∧
      (r.success = true ↔ ∃ a, 1 ≤ a ∧ a ≤ TelegramService.MAX_RETRIES ∧
        send (chatIds.get ⟨i, h⟩) a = none) := by
  have hM : TelegramService.MAX_RETRIES = 3 := rfl
  refine ⟨by simp [TelegramService.sendLivestreamNotification], ?_⟩
  refine ⟨(TelegramService.sendToChatWithRetry send (chatIds.get ⟨i, h⟩) ts).1, ?_, ?_, ?_⟩
  · simp [TelegramService.sendLivestreamNotification, List.getElem?_map,
      List.getElem?_eq_getElem h]
  · exact (sendToChatGo_fields send (chatIds.get ⟨i, h⟩) ts
      (TelegramService.MAX_RETRIES - 1) 1).1
  · rw [TelegramService.sendToChatWithRetry,
      (sendToChatGo_fields send (chatIds.get ⟨i, h⟩) ts
        (TelegramService.MAX_RETRIES - 1) 1).2, hM]
    constructor
    · rintro ⟨k, hk, hs⟩
      exact ⟨1 + k, by omega, by omega, hs⟩
    · rintro ⟨a, ha1, ha2, hs⟩
      refine ⟨a - 1, by omega, ?_⟩
      rwa [show 1 + (a - 1) = a by omega]

theorem claim_C2_witness :
    ((TelegramService.sendLivestreamNotification ["A", "B", "C"] w2send "ts").length
        = 3 ∧
      ∃ r, (TelegramService.sendLivestreamNotification ["A", "B", "C"] w2send
          "ts").get? 1 = some r ∧
        r.chatId = "B" ∧
        (r.success = true ↔ ∃ a, 1 ≤ a ∧ a ≤ TelegramService.MAX_RETRIES ∧
          w2send "B" a = none)) ∧
    (TelegramService.sendLivestreamNotification ["A", "B", "C"] w2send "ts").map
        (fun r => r.success) = [true, false, true] := by
  refine ⟨?_, by decide⟩
  exact claim_C2_fanout_outcomes ["A", "B", "C"] w2send "ts" 1 (by decide)

/-! Claim C6. -/

/-- C6: on a 429 failure the recorded delay is the one computed from the
retry-after header — the parsed header value times 1000 when the header is
present and parses to a nonzero integer, and the fixed value 1000000 (the
numeric fallback 1000 coerced through parseInt and scaled) when the header is
absent, independent of the attempt number; on a generic failure the recorded
delay is RETRY_DELAY_MS times the attempt number. -/
theorem claim_C6_retry_delays (attempt r : Nat) (h : String) (n : Int)
    (hdr : Option String) (T : Type)
    (req429 reqGen : Nat → Except YouTubeService.ReqError T) :
    (YouTubeService.jsParseInt h = some n → n ≠ 0 →
      YouTubeService.computeDelay429 (some h) attempt = n * 1000) ∧
    YouTubeService.computeDelay429 none attempt = 1000000 ∧
    (req429 attempt = Except.error (YouTubeService.ReqError.rateLimited hdr) →
      (YouTubeService.retryGo req429 attempt (r + 1)).2.2.head? =
        some (YouTubeService.computeDelay429 hdr attempt)) ∧
    (reqGen attempt = Except.error YouTubeService.ReqError.generic →
      (YouTubeService.retryGo reqGen attempt (r + 1)).2.2.head? =
        some ((YouTubeService.RETRY_DELAY_MS * attempt : Nat) : Int)) := by
  refine ⟨?_, rfl, ?_, ?_⟩
  · intro hp hn
    have hne : (h == "") = false := by
      cases he : h == ""
      · rfl
      · exfalso
        rw [show h = "" from by simpa using he] at hp
        rw [show YouTubeService.jsParseInt "" = none from rfl] at hp
        exact Option.noConfusion hp
    have hra : YouTubeService.retryAfterString (some h) = h := by
      simp [YouTubeService.retryAfterString, hne]
    have h0 : (n * 1000 == 0) = false := by
      have : n * 1000 ≠ 0 := mul_ne_zero hn (by norm_num)
      simpa using this
    unfold YouTubeService.computeDelay429
    rw [hra, hp]
    simp [h0]
  · intro he
    unfold YouTubeService.retryGo
    rw [he]
    rfl
  · intro he
    unfold YouTubeService.retryGo
    rw [he]
    rfl

theorem claim_C6_witness :
    YouTubeService.computeDelay429 (some "7") 2 = 7 * 1000 ∧
    YouTubeService.computeDelay429 none 2 = 1000000 ∧
    ((YouTubeService.retryGo c6req429 2 1).2.2.head? =
      some (YouTubeService.computeDelay429 (some "7") 2)) ∧
    ((YouTubeService.retryGo c6reqGen 2 1).2.2.head? =
      some ((YouTubeService.RETRY_DELAY_MS * 2 : Nat) : Int)) := by
  have hmain := claim_C6_retry_delays 2 0 "7" 7 (some "7") Nat c6req429 c6reqGen
  exact ⟨hmain.1 (by decide) (by decide), hmain.2.1, hmain.2.2.1 rfl, hmain.2.2.2 rfl⟩

/-! Claim C7. -/

/-- The retry loop never makes more attempts than it is allowed. -/
theorem retryGo_attempts_le {T : Type} (req : Nat → Except YouTubeService.ReqError T) :
    ∀ (remaining attempt : Nat),
      (YouTubeService.retryGo req attempt remaining).2.1 ≤ remaining + 1 := by
  intro remaining
  induction remaining with
  | zero =>
    intro attempt
    cases h : req attempt with
    | ok v => unfold YouTubeService.retryGo; rw [h]
    | error e =>
      cases e with
      | rateLimited hd => unfold YouTubeService.retryGo; rw [h]
      | generic => unfold YouTubeService.retryGo; rw [h]
  | succ r ih =>
    intro attempt
    cases h : req attempt with
    | ok v =>
      unfold YouTubeService.retryGo
      rw [h]
      exact Nat.le_add_left 1 (r + 1)
    | error e =>
      have := ih (attempt + 1)
      unfold YouTubeService.retryGo
      rw [h]
      simpa using Nat.add_le_add_right this 1

/-- C7: a metadata fetch whose underlying request fails on the first two
attempts and succeeds on the third makes exactly three attempts, returns the
metadata built from the first response item, and records exactly two backoff
delays; and no operation ever makes more than MAX_RETRIES attempts. -/
theorem claim_C7_third_attempt (videoId : String)
    (req : Nat → Except YouTubeService.ReqError YouTubeService.ApiResponse)
    (e1 e2 : YouTubeService.ReqError) (resp : YouTubeService.ApiResponse)
    (item : YouTubeService.ApiItem) (rest : List YouTubeService.ApiItem)
    (h1 : req 1 = Except.error e1) (h2 : req 2 = Except.error e2)
    (h3 : req 3 = Except.ok resp) (hitems : resp.items = item :: rest) :
    (YouTubeService.getVideoMetadata videoId req).1
        = some (YouTubeService.metadataOfItem videoId item) ∧
    (YouTubeService.getVideoMetadata videoId req).2.1 = 3 ∧
    (YouTubeService.getVideoMetadata videoId req).2.2.length = 2 ∧
    ∀ (T : Type) (req2 : Nat → Except YouTubeService.ReqError T),
      (YouTubeService.makeRequestWithRetry req2).2.1 ≤ YouTubeService.MAX_RETRIES := by
  have hrun : YouTubeService.makeRequestWithRetry req = YouTubeService.retryGo req 1 2 := rfl
  have hgo : (YouTubeService.retryGo req 1 2).1 = Except.ok resp ∧
      (YouTubeService.retryGo req 1 2).2.1 = 3 ∧
      (YouTubeService.retryGo req 1 2).2.2.length = 2 := by
    have e3 : YouTubeService.retryGo req 3 0 = (Except.ok resp, 1, []) := by
      unfold YouTubeService.retryGo; rw [h3]
    have e2go : (YouTubeService.retryGo req 2 1).1 = Except.ok resp ∧
        (YouTubeService.retryGo req 2 1).2.1 = 2 ∧
        (YouTubeService.retryGo req 2 1).2.2.length = 1 := by
      unfold YouTubeService.retryGo
      rw [h2]
      cases e2 <;> simp [e3]
    unfold YouTubeService.retryGo
    rw [h1]
    cases e1 <;> simp [e2go.1, e2go.2.1, e2go.2.2]
  refine ⟨?_, ?_, ?_, ?_⟩
  · simp only [YouTubeService.getVideoMetadata, YouTubeService.makeRequestWithRetry,
      show YouTubeService.MAX_RETRIES - 1 = 2 from rfl, hgo.1, hitems]
  · simp only [YouTubeService.getVideoMetadata, YouTubeService.makeRequestWithRetry,
      show YouTubeService.MAX_RETRIES - 1 = 2 from rfl, hgo.1, hitems]
    exact hgo.2.1
  · simp only [YouTubeService.getVideoMetadata, YouTubeService.makeRequestWithRetry,
      show YouTubeService.MAX_RETRIES - 1 = 2 from rfl, hgo.1, hitems]
    exact hgo.2.2
  · intro T req2
    exact retryGo_attempts_le req2 2 1

theorem claim_C7_witness :
    (YouTubeService.getVideoMetadata "vid7" c7req).1
        = some (YouTubeService.metadataOfItem "vid7" c7item) ∧
    (YouTubeService.getVideoMetadata "vid7" c7req).2.1 = 3 ∧
    (YouTubeService.getVideoMetadata "vid7" c7req).2.2.length = 2 ∧
    ∀ (T : Type) (req2 : Nat → Except YouTubeService.ReqError T),
      (YouTubeService.makeRequestWithRetry req2).2.1 ≤ YouTubeService.MAX_RETRIES :=
  claim_C7_third_attempt "vid7" c7req YouTubeService.ReqError.generic
    YouTubeService.ReqError.generic c7resp c7item [] rfl rfl rfl rfl

/-! Claim C1. -/

/-- C1: an entry that passes the duplicate check, the metadata fetch and the
tag filter always reaches the mark — the resulting store is exactly
markAsNotified of the incoming store, and the fan-out's outcome list is the
one returned by the delivery loop — for every send oracle, including oracles
under which some or all per-chat deliveries fail. -/
theorem claim_C1_mark_after_fanout (env : PipelineEnv) (store : RedisStore)
    (entry : FeedEntry) (videoId : String) (meta : VideoMetadata)
    (hid : entry.videoId = some videoId)
    (hdup : hasBeenNotified store videoId = false)
    (hfetch : env.fetch videoId = some meta)
    (htag : containsLiveTag meta.description = true) :
    (processFeedEntry env store entry).2.markCalled = true ∧
    (processFeedEntry env store entry).1 = markAsNotified store videoId ∧
    (processFeedEntry env store entry).2.outcomes =
      TelegramService.sendLivestreamNotification env.chatIds env.send env.nowTs ∧
    (processFeedEntry env store entry).2.fanoutCalled = true := by
  simp [processFeedEntry, hid, hdup, hfetch, htag]

theorem claim_C1_witness :
    ((processFeedEntry w1env w1store w1entry).2.markCalled = true ∧
      (processFeedEntry w1env w1store w1entry).1 = markAsNotified w1store "vid1" ∧
      (processFeedEntry w1env w1store w1entry).2.outcomes =
        TelegramService.sendLivestreamNotification w1env.chatIds w1env.send
          w1env.nowTs ∧
      (processFeedEntry w1env w1store w1entry).2.fanoutCalled = true) ∧
    ((processFeedEntry w1env w1store w1entry).2.outcomes.all fun r => !r.success)
      = true ∧
    hasBeenNotified (processFeedEntry w1env w1store w1entry).1 "vid1" = true := by
  refine ⟨claim_C1_mark_after_fanout w1env w1store w1entry "vid1" w1meta rfl
    (by decide) rfl (by decide), by decide, by decide⟩

/-! Claim C8. -/

/-- C8: the callback status depends only on the payload structure — a parsed
feed with an entry structure answers 200 whatever the entries, the store and
the collaborators do (each entry's processing errors are swallowed by its own
catch), and a missing structure answers 400. -/
theorem claim_C8_webhook_status (env : PipelineEnv) (store : RedisStore)
    (parsed : Option WebSubPayload) :
    ((handleWebSubCallback env store parsed).1.status = 200 ↔
      hasFeedStructure parsed = true) ∧
    (hasFeedStructure parsed = false →
      (handleWebSubCallback env store parsed).1.status = 400) := by
  cases parsed with
  | none => simp [handleWebSubCallback, hasFeedStructure]
  | some p =>
    cases hf : p.feed with
    | none => simp [handleWebSubCallback, hasFeedStructure, hf]
    | some f =>
      cases he : f.entry with
      | none => simp [handleWebSubCallback, hasFeedStructure, hf, he]
      | some en => simp [handleWebSubCallback, hasFeedStructure, hf, he]

theorem claim_C8_witness :
    ((handleWebSubCallback w1env w1store (some c8payload)).1.status = 200 ↔
      hasFeedStructure (some c8payload) = true) ∧
    (handleWebSubCallback w1env w1store (some c8payload)).1.status = 200 ∧
    (hasFeedStructure none = false →
      (handleWebSubCallback w1env w1store none).1.status = 400) ∧
    (handleWebSubCallback w1env w1store none).1.status = 400 := by
  have hmain := claim_C8_webhook_status w1env w1store (some c8payload)
  have hnone := claim_C8_webhook_status w1env w1store none
  exact ⟨hmain.1, hmain.1.mpr (by decide), hnone.2, hnone.2 rfl⟩

/-! Claim C5. -/

/-- C5 counterexample: a single payload holding two entries that bear the
same video id "abc123" (the video's description lacks the marker tag) runs
the downstream pipeline — duplicate check, metadata fetch and tag filter all
invoked — twice for that one distinct identifier, refuting "never more than
once for the same distinct item identifier within that single payload". -/
theorem claim_C5_counterexample :
    pipelineCountFor (handleWebSubCallback c5env c5store (some c5payload)).2.2
        "abc123" = 2 ∧
    (handleWebSubCallback c5env c5store (some c5payload)).2.2.length = 2 := by
  constructor
  · decide
  · decide

/-- markAsNotified with a reachable store replaces the key's binding and
sets its expiry one window ahead. -/
theorem markAsNotified_eq_of_reachable (store : RedisStore) (id : String)
    (h : store.reachable = true) :
    markAsNotified store id =
      { store with entriesKV := (dedupKey id, store.now + TTL_SECONDS)
          :: store.entriesKV.filter (fun kv => kv.1 != dedupKey id) } := by
  simp [markAsNotified, h]

theorem markAsNotified_reachable (store : RedisStore) (id : String) :
    (markAsNotified store id).reachable = store.reachable := by
  unfold markAsNotified
  split <;> rfl

/-- A freshly marked id reads as notified (the window is positive). -/
theorem hasBeenNotified_after_mark (store : RedisStore) (id : String)
    (hreach : store.reachable = true) :
    hasBeenNotified (markAsNotified store id) id = true := by
  rw [markAsNotified_eq_of_reachable store id hreach]
  have hlt : store.now < store.now + TTL_SECONDS := by
    unfold TTL_SECONDS; omega
  simp [hasBeenNotified, hreach, hlt]

/-- Marking one id never makes another already-notified id read as not
notified. -/
theorem hasBeenNotified_markAsNotified_mono (store : RedisStore) (id id2 : String)
    (h : hasBeenNotified store id = true) :
    hasBeenNotified (markAsNotified store id2) id = true := by
  have hreach : store.reachable = true := by
    cases hr : store.reachable
    · unfold hasBeenNotified at h; rw [hr] at h; simp at h
    · rfl
  rw [markAsNotified_eq_of_reachable store id2 hreach]
  unfold hasBeenNotified at h ⊢
  rw [hreach] at h
  simp only [if_true] at h
  simp only [hreach, if_true]
  by_cases hkk : dedupKey id = dedupKey id2
  · have hlt : store.now < store.now + TTL_SECONDS := by
      unfold TTL_SECONDS; omega
    simp [List.any_cons, ← hkk, hlt]
  · simp only [List.any_cons, Bool.or_eq_true]
    right
    rw [List.any_eq_true] at h ⊢
    obtain ⟨kv, hmem, hp⟩ := h
    refine ⟨kv, ?_, hp⟩
    rw [List.mem_filter]
    refine ⟨hmem, ?_⟩
    have hk : kv.1 = dedupKey id := by
      have hp2 := hp
      rw [Bool.and_eq_true] at hp2
      simpa using hp2.1
    simp [hk]
    exact hkk

/-- Processing an entry keeps the store's reachability. -/
theorem processFeedEntry_reachable (env : PipelineEnv) (store : RedisStore)
    (e : FeedEntry) :
    (processFeedEntry env store e).1.reachable = store.reachable := by
  unfold processFeedEntry
  cases hv : e.videoId with
  | none => rfl
  | some vid =>
    dsimp only
    split
    · rfl
    · split
      · rfl
      · split
        · exact markAsNotified_reachable store vid
        · rfl

/-- Processing an entry never makes a notified id read as not notified. -/
theorem processFeedEntry_preserves_notified (env : PipelineEnv) (store : RedisStore)
    (e : FeedEntry) (id : String) (h : hasBeenNotified store id = true) :
    hasBeenNotified (processFeedEntry env store e).1 id = true := by
  unfold processFeedEntry
  cases hv : e.videoId with
  | none => exact h
  | some vid =>
    dsimp only
    split
    · exact h
    · split
      · exact h
      · split
        · exact hasBeenNotified_markAsNotified_mono store id vid h
        · exact h

/-- An entry whose id is already notified is skipped: no fan-out, store
unchanged. -/
theorem processFeedEntry_skip_of_notified (env : PipelineEnv) (store : RedisStore)
    (e : FeedEntry) (id : String) (hid : e.videoId = some id)
    (h : hasBeenNotified store id = true) :
    (processFeedEntry env store e).1 = store ∧
    (processFeedEntry env store e).2.fanoutCalled = false := by
  simp [processFeedEntry, hid, h, emptyTrace]

/-- When the fan-out ran for an entry, the processed store has the entry's id
marked (reachable store). -/
theorem processFeedEntry_fanout_marks (env : PipelineEnv) (store : RedisStore)
    (e : FeedEntry) (id : String) (hreach : store.reachable = true)
    (hid : e.videoId = some id)
    (hf : (processFeedEntry env store e).2.fanoutCalled = true) :
    hasBeenNotified (processFeedEntry env store e).1 id = true := by
  by_cases hdup : hasBeenNotified store id = true
  · have := (processFeedEntry_skip_of_notified env store e id hid hdup).2
    rw [this] at hf
    exact absurd hf (by decide)
  · have hdup' : hasBeenNotified store id = false := by
      cases hx : hasBeenNotified store id
      · rfl
      · exact absurd hx hdup
    cases hfetch : env.fetch id with
    | none =>
      have hno : (processFeedEntry env store e).2.fanoutCalled = false := by
        simp [processFeedEntry, hid, hdup', hfetch, emptyTrace]
      rw [hno] at hf
      exact absurd hf (by decide)
    | some meta =>
      by_cases htag : containsLiveTag meta.description = true
      · have hres : (processFeedEntry env store e).1 = markAsNotified store id := by
          simp [processFeedEntry, hid, hdup', hfetch, htag]
        rw [hres]
        exact hasBeenNotified_after_mark store id hreach
      · have hno : (processFeedEntry env store e).2.fanoutCalled = false := by
          simp [processFeedEntry, hid, hdup', hfetch, htag, emptyTrace]
        rw [hno] at hf
        exact absurd hf (by decide)

/-- Splitting the fan-out count over the first processed entry. -/
theorem fanoutCountFor_cons (e : FeedEntry) (tr : EntryTrace)
    (rest : List (FeedEntry × EntryTrace)) (id : String) :
    fanoutCountFor ((e, tr) :: rest) id =
      (if (e.videoId == some id && tr.fanoutCalled) = true then 1 else 0)
        + fanoutCountFor rest id := by
  unfold fanoutCountFor
  rw [List.filter_cons]
  split
  · simp [Nat.add_comm]
  · simp

/-- C5 amended: the controller yields exactly one trace per entry (so at most
N pipeline runs for a payload of N entries), and — when the suppressor store
is reachable — the delivery fan-out runs at most once per distinct video id
within a single payload; the duplicate check, metadata fetch and tag filter,
however, may run once per entry bearing that id. -/
theorem claim_C5_amended (env : PipelineEnv) (entries : List FeedEntry)
    (store : RedisStore) (id : String) (hreach : store.reachable = true) :
    (processEntries env store entries).2.length = entries.length ∧
    fanoutCountFor (processEntries env store entries).2 id ≤ 1 := by
  have main : ∀ (es : List FeedEntry) (st : RedisStore), st.reachable = true →
      (processEntries env st es).2.length = es.length ∧
      fanoutCountFor (processEntries env st es).2 id ≤ 1 ∧
      (hasBeenNotified st id = true →
        fanoutCountFor (processEntries env st es).2 id = 0) := by
    intro es
    induction es with
    | nil =>
      intro st hst
      exact ⟨rfl, by simp [processEntries, fanoutCountFor],
        fun _ => by simp [processEntries, fanoutCountFor]⟩
    | cons e tl ih =>
      intro st hst
      have hst1 : (processFeedEntry env st e).1.reachable = true := by
        rw [processFeedEntry_reachable]; exact hst
      obtain ⟨ihlen, ihle, ihzero⟩ := ih (processFeedEntry env st e).1 hst1
      have heq : (processEntries env st (e :: tl)).2 =
          (e, (processFeedEntry env st e).2)
            :: (processEntries env (processFeedEntry env st e).1 tl).2 := by
        simp [processEntries]
      refine ⟨?_, ?_, ?_⟩
      · rw [heq]
        simp [ihlen]
      · rw [heq, fanoutCountFor_cons]
        by_cases hc : (e.videoId == some id
            && (processFeedEntry env st e).2.fanoutCalled) = true
        · have hc2 := hc
          rw [Bool.and_eq_true] at hc2
          have hv : e.videoId = some id := by simpa using hc2.1
          have hfo : (processFeedEntry env st e).2.fanoutCalled = true := hc2.2
          have hmarked := processFeedEntry_fanout_marks env st e id hst hv hfo
          rw [if_pos hc, ihzero hmarked]
        · rw [if_neg hc]
          simpa using ihle
      · intro hnot
        rw [heq, fanoutCountFor_cons]
        have hrest0 : fanoutCountFor
            (processEntries env (processFeedEntry env st e).1 tl).2 id = 0 :=
          ihzero (processFeedEntry_preserves_notified env st e id hnot)
        have hhead : (e.videoId == some id
            && (processFeedEntry env st e).2.fanoutCalled) = false := by
          by_cases hv : e.videoId = some id
          · have := (processFeedEntry_skip_of_notified env st e id hv hnot).2
            simp [this]
          · simp [hv]
        rw [hhead]
        simp [hrest0]

  exact ⟨(main entries store hreach).1, (main entries store hreach).2.1⟩

theorem claim_C5_witness :
    ((processEntries w5env c5store w5entries).2.length = w5entries.length ∧
      fanoutCountFor (processEntries w5env c5store w5entries).2 "abc123" ≤ 1) ∧
    fanoutCountFor (processEntries w5env c5store w5entries).2 "abc123" = 1 := by
  refine ⟨claim_C5_amended w5env w5entries c5store "abc123" rfl, by decide⟩

end AltudevBot
